import Mathlib

/-!
Shallow embedding of the MeEA `V1/backtest` core (Python) in Lean 4.

Floating-point values are modelled as rationals; the transcendental
primitives `math.log` and `math.sqrt` are abstracted as an explicit
parameter record `Prims`, since no verified claim depends on their
numeric values (only on the surrounding control flow and arithmetic).
Ring buffers are lists with explicit head/count indices, written with
`List.set`, exactly mirroring the Python index arithmetic.
-/

/-- Abstracted numeric primitives (`math.log`, `math.sqrt`). -/
structure Prims where
  log : ℚ → ℚ
  sqrt : ℚ → ℚ

/-- Identity instantiation of the primitives, used for concrete runs. -/
def prId : Prims := ⟨fun x => x, fun x => x⟩

/-- config.py `PositionType`. -/
inductive PositionType where
  | BUY
  | SELL
deriving DecidableEq, Repr

/-- config.py `Signal`. -/
inductive Signal where
  | NONE
  | BUY
  | SELL
  | CLOSE_BUY
  | CLOSE_SELL
deriving DecidableEq, Repr

/-- config.py `VolRegime`. -/
inductive VolRegime where
  | LOW
  | NORMAL
  | HIGH
deriving DecidableEq, Repr

/-- position.py `Position` (open_time modelled as an abstract day stamp). -/
structure Position where
  ticket : ℕ
  type : PositionType
  open_time : ℤ
  open_price : ℚ
  lots : ℚ
  stop_loss : ℚ
  entry_bar_index : ℕ
deriving DecidableEq, Repr

/-- position.py `ClosedTrade`. -/
structure ClosedTrade where
  ticket : ℕ
  type : PositionType
  open_time : ℤ
  close_time : ℤ
  open_price : ℚ
  close_price : ℚ
  lots : ℚ
  profit : ℚ
  close_reason : String
  entry_bar_index : ℕ
  exit_bar_index : ℕ
deriving DecidableEq, Repr

def Position.isBuy (p : Position) : Bool :=
  match p.type with
  | PositionType.BUY => true
  | PositionType.SELL => false

def Position.isSell (p : Position) : Bool :=
  match p.type with
  | PositionType.BUY => false
  | PositionType.SELL => true

/-- kalman_filter.py `KalmanFilter` internal state. -/
structure KalmanFilter where
  level : ℚ
  slope : ℚ
  P00 : ℚ
  P01 : ℚ
  P10 : ℚ
  P11 : ℚ
  Q00 : ℚ
  Q01 : ℚ
  Q10 : ℚ
  Q11 : ℚ
  R : ℚ
  initialized : Bool
deriving DecidableEq, Repr

/-- kalman_filter.py `KalmanFilter.__init__`. -/
def KalmanFilter.mk0 : KalmanFilter :=
  { level := 0
    slope := 0
    P00 := 1
    P01 := 0
    P10 := 0
    P11 := 1
    Q00 := 1/100
    Q01 := 0
    Q10 := 0
    Q11 := 1/100
    R := 1
    initialized := false }

/-- kalman_filter.py `KalmanFilter.init`. -/
def KalmanFilter.init (kf : KalmanFilter) (process_noise observ_noise : ℚ) : KalmanFilter :=
  { kf with
    Q00 := process_noise
    Q01 := 0
    Q10 := 0
    Q11 := process_noise
    R := observ_noise
    initialized := false }

/-- kalman_filter.py `KalmanFilter.update`. -/
def KalmanFilter.update (pr : Prims) (kf : KalmanFilter) (price : ℚ) : KalmanFilter :=
  if kf.initialized = false then
    let price_scale := price * (1/100)
    { kf with
      level := price
      slope := 0
      P00 := price_scale * price_scale
      P01 := 0
      P10 := 0
      P11 := price_scale * price_scale * (1/100)
      initialized := true }
  else
    let x_pred0 := kf.level + kf.slope
    let x_pred1 := kf.slope
    let FP00 := kf.P00 + kf.P10
    let FP01 := kf.P01 + kf.P11
    let FP10 := kf.P10
    let FP11 := kf.P11
    let P_pred00 := FP00 + FP01 + kf.Q00
    let P_pred01 := FP01 + kf.Q01
    let P_pred10 := FP10 + FP11 + kf.Q10
    let P_pred11 := FP11 + kf.Q11
    let y := price - x_pred0
    let S := P_pred00 + kf.R
    let innovation_sigma := pr.sqrt S
    if |y| > 3 * innovation_sigma then
      { kf with
        level := x_pred0
        slope := x_pred1
        P00 := P_pred00
        P01 := P_pred01
        P10 := P_pred10
        P11 := P_pred11 }
    else
      let K0 := P_pred00 / S
      let K1 := P_pred10 / S
      { kf with
        level := x_pred0 + K0 * y
        slope := x_pred1 + K1 * y
        P00 := (1 - K0) * P_pred00
        P01 := (1 - K0) * P_pred01
        P10 := -K1 * P_pred00 + P_pred10
        P11 := -K1 * P_pred01 + P_pred11 }

def KalmanFilter.get_level (kf : KalmanFilter) : ℚ := kf.level

def KalmanFilter.get_slope (kf : KalmanFilter) : ℚ := kf.slope

def KalmanFilter.get_estimation_error (pr : Prims) (kf : KalmanFilter) : ℚ :=
  pr.sqrt |kf.P00|

def KalmanFilter.get_upper_band (pr : Prims) (kf : KalmanFilter) (k : ℚ) : ℚ :=
  kf.level + k * kf.get_estimation_error pr

def KalmanFilter.get_lower_band (pr : Prims) (kf : KalmanFilter) (k : ℚ) : ℚ :=
  kf.level - k * kf.get_estimation_error pr

def KalmanFilter.is_initialized (kf : KalmanFilter) : Bool := kf.initialized

/-- hurst_exponent.py `HurstExponent` internal state. -/
structure HurstExponent where
  period : ℕ
  returns : List ℚ
  head : ℕ
  count : ℕ
  hurst : ℚ
deriving DecidableEq, Repr

/-- hurst_exponent.py `HurstExponent.__init__`. -/
def HurstExponent.mk0 : HurstExponent :=
  { period := 200
    returns := []
    head := 0
    count := 0
    hurst := 1/2 }

/-- hurst_exponent.py `HurstExponent.init`. -/
def HurstExponent.init (h : HurstExponent) (period : ℕ) : HurstExponent :=
  { h with
    period := period
    returns := List.replicate period 0
    head := 0
    count := 0
    hurst := 1/2 }

/-- hurst_exponent.py `HurstExponent._linearize`. -/
def HurstExponent.linearize (h : HurstExponent) : List ℚ :=
  let data_len := min h.count h.period
  if h.count < h.period then
    h.returns.take data_len
  else
    (List.range data_len).map fun i => h.returns.getD ((h.head + i) % h.period) 0

/-- hurst_exponent.py `HurstExponent._calc_rs` (static).  The running
max/min of the cumulative deviation start at the sentinel values
-1e30 / 1e30 exactly as in the source. -/
def calc_rs (pr : Prims) (data : List ℚ) (start length : ℕ) : ℚ :=
  if length < 2 then 0
  else
    let seg := (List.range length).map fun i => data.getD (start + i) 0
    let mean := seg.sum / (length : ℚ)
    let sum_sq := (seg.map fun x => (x - mean) * (x - mean)).sum
    let sd := pr.sqrt (sum_sq / (length : ℚ))
    if sd < 1/10^15 then 0
    else
      let cums := seg.foldl (fun acc x =>
        let cum_dev := acc.1 + (x - mean)
        (cum_dev, max acc.2.1 cum_dev, min acc.2.2 cum_dev)) (0, -(10^30 : ℚ), (10^30 : ℚ))
      (cums.2.1 - cums.2.2) / sd

/-- The `while n <= data_len // 2` loop body of
hurst_exponent.py `HurstExponent._calculate_hurst`, written with
explicit fuel (the loop strictly increases `n` each pass, so
`data_len` passes always suffice). -/
def hurstLoop (pr : Prims) (linear : List ℚ) (data_len : ℕ) :
    ℕ → ℕ → ℕ → List (ℚ × ℚ) → List (ℚ × ℚ)
  | 0, _, _, acc => acc
  | fuel + 1, prev_n, n, acc =>
    if n ≤ data_len / 2 then
      if n = prev_n then
        hurstLoop pr linear data_len fuel prev_n (n + 1) acc
      else
        let num_segments := data_len / n
        if num_segments < 1 then acc
        else
          let rss := (List.range num_segments).map fun seg => calc_rs pr linear (seg * n) n
          let valid := rss.filter fun rs => 0 < rs
          let acc' :=
            if 0 < valid.length then
              acc ++ [(pr.log (n : ℚ), pr.log (valid.sum / (valid.length : ℚ)))]
            else acc
          hurstLoop pr linear data_len fuel n (n * 3 / 2) acc'
    else acc

/-- hurst_exponent.py `HurstExponent._calculate_hurst`. -/
def HurstExponent.calculate_hurst (pr : Prims) (h : HurstExponent) : ℚ :=
  let linear := h.linearize
  let data_len := linear.length
  if data_len < 20 then 1/2
  else
    let pts := hurstLoop pr linear data_len (data_len + 2) 0 8 []
    let num_points := pts.length
    if num_points < 2 then 1/2
    else
      let sum_x := (pts.map Prod.fst).sum
      let sum_y := (pts.map Prod.snd).sum
      let sum_xy := (pts.map fun p => p.1 * p.2).sum
      let sum_x2 := (pts.map fun p => p.1 * p.1).sum
      let denom := (num_points : ℚ) * sum_x2 - sum_x * sum_x
      if |denom| < 1/10^15 then 1/2
      else
        let H := ((num_points : ℚ) * sum_xy - sum_x * sum_y) / denom
        max 0 (min 1 H)

/-- hurst_exponent.py `HurstExponent.update`. -/
def HurstExponent.update (pr : Prims) (h : HurstExponent) (close prev_close : ℚ) :
    HurstExponent :=
  if prev_close ≤ 0 ∨ close ≤ 0 then h
  else
    let ret := pr.log (close / prev_close)
    let h1 : HurstExponent :=
      if h.count < h.period then
        { h with
          returns := h.returns.set h.count ret
          count := h.count + 1 }
      else
        { h with
          returns := h.returns.set h.head ret
          head := (h.head + 1) % h.period }
    if 20 ≤ h1.count then { h1 with hurst := h1.calculate_hurst pr } else h1

def HurstExponent.get_hurst (h : HurstExponent) : ℚ := h.hurst

def HurstExponent.is_trending (h : HurstExponent) (threshold : ℚ) : Bool :=
  decide (threshold < h.hurst)

def HurstExponent.is_ready (h : HurstExponent) : Bool :=
  decide (20 ≤ h.count)

/-- volatility_regime.py `VolatilityRegime` internal state. -/
structure VolatilityRegime where
  period : ℕ
  hist_period : ℕ
  returns : List ℚ
  ret_head : ℕ
  ret_count : ℕ
  vol_history : List ℚ
  vol_head : ℕ
  vol_count : ℕ
  current_vol : ℚ
  percentile : ℚ
deriving DecidableEq, Repr

/-- volatility_regime.py `VolatilityRegime.__init__`. -/
def VolatilityRegime.mk0 : VolatilityRegime :=
  { period := 100
    hist_period := 500
    returns := []
    ret_head := 0
    ret_count := 0
    vol_history := []
    vol_head := 0
    vol_count := 0
    current_vol := 0
    percentile := 1/2 }

/-- volatility_regime.py `VolatilityRegime.init`. -/
def VolatilityRegime.init (v : VolatilityRegime) (period hist_period : ℕ) : VolatilityRegime :=
  { v with
    period := period
    hist_period := hist_period
    returns := List.replicate period 0
    ret_head := 0
    ret_count := 0
    vol_history := List.replicate hist_period 0
    vol_head := 0
    vol_count := 0
    current_vol := 0
    percentile := 1/2 }

/-- The returns ring-buffer write of volatility_regime.py
`VolatilityRegime.update`. -/
def VolatilityRegime.pushReturn (v : VolatilityRegime) (ret : ℚ) : VolatilityRegime :=
  if v.ret_count < v.period then
    { v with
      returns := v.returns.set v.ret_count ret
      ret_count := v.ret_count + 1 }
  else
    { v with
      returns := v.returns.set v.ret_head ret
      ret_head := (v.ret_head + 1) % v.period }

/-- The realized-volatility computation of volatility_regime.py
`VolatilityRegime.update` (population standard deviation of the
buffered returns, once at least two are present). -/
def VolatilityRegime.computeVol (pr : Prims) (v : VolatilityRegime) : VolatilityRegime :=
  if 2 ≤ v.ret_count then
    let length : ℕ := min v.ret_count v.period
    let mean := (v.returns.take length).sum / (length : ℚ)
    let sum_sq := ((v.returns.take length).map fun x => (x - mean) * (x - mean)).sum
    { v with current_vol := pr.sqrt (sum_sq / (length : ℚ)) }
  else v

/-- The volatility-history ring-buffer write of volatility_regime.py
`VolatilityRegime.update`. -/
def VolatilityRegime.pushVol (v : VolatilityRegime) : VolatilityRegime :=
  if v.vol_count < v.hist_period then
    { v with
      vol_history := v.vol_history.set v.vol_count v.current_vol
      vol_count := v.vol_count + 1 }
  else
    { v with
      vol_history := v.vol_history.set v.vol_head v.current_vol
      vol_head := (v.vol_head + 1) % v.hist_period }

/-- The percentile-rank computation of volatility_regime.py
`VolatilityRegime.update` (guarded by `vol_count >= 2` in the source). -/
def VolatilityRegime.computePercentile (v : VolatilityRegime) : VolatilityRegime :=
  if 2 ≤ v.vol_count then
    let length : ℕ := min v.vol_count v.hist_period
    let count_below := ((v.vol_history.take length).filter fun x => x < v.current_vol).length
    { v with percentile := (count_below : ℚ) / (length : ℚ) }
  else v

/-- volatility_regime.py `VolatilityRegime.update`, composing the
sections above in source order. -/
def VolatilityRegime.update (pr : Prims) (v : VolatilityRegime) (close prev_close : ℚ) :
    VolatilityRegime :=
  if prev_close ≤ 0 ∨ close ≤ 0 then v
  else
    let ret := pr.log (close / prev_close)
    let v1 : VolatilityRegime := v.pushReturn ret
    let v2 : VolatilityRegime := v1.computeVol pr
    if 0 < v2.current_vol then v2.pushVol.computePercentile
    else v2

def VolatilityRegime.get_current_vol (v : VolatilityRegime) : ℚ := v.current_vol

def VolatilityRegime.get_percentile (v : VolatilityRegime) : ℚ := v.percentile

/-- volatility_regime.py `VolatilityRegime.get_regime`. -/
def VolatilityRegime.get_regime (v : VolatilityRegime) : VolRegime :=
  if v.percentile < 1/4 then VolRegime.LOW
  else if 3/4 < v.percentile then VolRegime.HIGH
  else VolRegime.NORMAL

def VolatilityRegime.is_ready (v : VolatilityRegime) : Bool :=
  decide (v.period ≤ v.ret_count ∧ 20 ≤ v.vol_count)

/-- signal_engine.py `SignalEngine` internal state. -/
structure SignalEngine where
  kalman : KalmanFilter
  hurst : HurstExponent
  vol_regime : VolatilityRegime
  conf_band : ℚ
  hurst_threshold : ℚ
  hurst_exit_threshold : ℚ
deriving DecidableEq, Repr

/-- signal_engine.py `SignalEngine.__init__`. -/
def SignalEngine.mk0 : SignalEngine :=
  { kalman := KalmanFilter.mk0
    hurst := HurstExponent.mk0
    vol_regime := VolatilityRegime.mk0
    conf_band := 2
    hurst_threshold := 55/100
    hurst_exit_threshold := 40/100 }

/-- signal_engine.py `SignalEngine.init`. -/
def SignalEngine.init (e : SignalEngine) (kf_process_noise kf_observ_noise conf_band : ℚ)
    (hurst_period : ℕ) (hurst_threshold : ℚ) (vol_period vol_hist_period : ℕ)
    (hurst_exit_threshold : ℚ) : SignalEngine :=
  { e with
    kalman := e.kalman.init kf_process_noise kf_observ_noise
    hurst := e.hurst.init hurst_period
    vol_regime := e.vol_regime.init vol_period vol_hist_period
    conf_band := conf_band
    hurst_threshold := hurst_threshold
    hurst_exit_threshold := hurst_exit_threshold }

/-- signal_engine.py `SignalEngine.on_new_bar`. -/
def SignalEngine.on_new_bar (pr : Prims) (e : SignalEngine) (close prev_close : ℚ) :
    SignalEngine :=
  { e with
    kalman := e.kalman.update pr close
    hurst := e.hurst.update pr close prev_close
    vol_regime := e.vol_regime.update pr close prev_close }

/-- signal_engine.py `SignalEngine.get_entry_signal`. -/
def SignalEngine.get_entry_signal (pr : Prims) (e : SignalEngine) (current_price : ℚ) :
    Signal :=
  if ¬ (e.kalman.is_initialized = true) ∨ ¬ (e.hurst.is_ready = true) then Signal.NONE
  else
    let slope := e.kalman.get_slope
    let hurst := e.hurst.get_hurst
    let upper_band := e.kalman.get_upper_band pr e.conf_band
    let lower_band := e.kalman.get_lower_band pr e.conf_band
    if 0 < slope ∧ e.hurst_threshold < hurst ∧ upper_band < current_price then Signal.BUY
    else if slope < 0 ∧ e.hurst_threshold < hurst ∧ current_price < lower_band then Signal.SELL
    else Signal.NONE

/-- signal_engine.py `SignalEngine.should_close_buy`. -/
def SignalEngine.should_close_buy (e : SignalEngine) : Bool :=
  if ¬ (e.kalman.is_initialized = true) then false
  else decide (e.kalman.get_slope < 0 ∧ e.hurst.get_hurst < e.hurst_exit_threshold)

/-- signal_engine.py `SignalEngine.should_close_sell`. -/
def SignalEngine.should_close_sell (e : SignalEngine) : Bool :=
  if ¬ (e.kalman.is_initialized = true) then false
  else decide (0 < e.kalman.get_slope ∧ e.hurst.get_hurst < e.hurst_exit_threshold)

def SignalEngine.get_kalman_level (e : SignalEngine) : ℚ := e.kalman.get_level

def SignalEngine.get_kalman_slope (e : SignalEngine) : ℚ := e.kalman.get_slope

def SignalEngine.get_estimation_error (pr : Prims) (e : SignalEngine) : ℚ :=
  e.kalman.get_estimation_error pr

def SignalEngine.get_upper_band (pr : Prims) (e : SignalEngine) : ℚ :=
  e.kalman.get_upper_band pr e.conf_band

def SignalEngine.get_lower_band (pr : Prims) (e : SignalEngine) : ℚ :=
  e.kalman.get_lower_band pr e.conf_band

def SignalEngine.get_hurst (e : SignalEngine) : ℚ := e.hurst.get_hurst

def SignalEngine.get_vol_regime (e : SignalEngine) : VolRegime := e.vol_regime.get_regime

def SignalEngine.get_current_vol (e : SignalEngine) : ℚ := e.vol_regime.get_current_vol

def SignalEngine.get_vol_percentile (e : SignalEngine) : ℚ := e.vol_regime.get_percentile

/-- config.py `EAConfig` (fields used by the core; floats as rationals). -/
structure EAConfig where
  kf_process_noise : ℚ
  kf_observ_noise : ℚ
  kf_conf_band : ℚ
  hurst_period : ℕ
  hurst_threshold : ℚ
  vol_period : ℕ
  vol_hist_period : ℕ
  risk_per_trade : ℚ
  max_positions : ℕ
  max_daily_dd : ℚ
  max_spread_points : ℚ
  hurst_exit_threshold : ℚ
  trail_multiplier : ℚ
  min_hold_bars : ℕ
  slippage_points : ℚ
  close_cooldown : ℕ
  initial_equity : ℚ
  leverage : ℚ
deriving DecidableEq, Repr

/-- config.py `InstrumentConfig` (fields used by the core). -/
structure InstrumentConfig where
  point : ℚ
  point_value : ℚ
  min_lot : ℚ
  max_lot : ℚ
  lot_step : ℚ
  spread_points : ℚ
  contract_size : ℚ
deriving DecidableEq, Repr

/-- risk_manager.py `RiskManager.calc_margin`. -/
def calc_margin (ea : EAConfig) (inst : InstrumentConfig) (lots price : ℚ) : ℚ :=
  (lots * inst.contract_size * price) / ea.leverage

/-- risk_manager.py `RiskManager.get_used_margin`. -/
def get_used_margin (ea : EAConfig) (inst : InstrumentConfig) (positions : List Position) : ℚ :=
  (positions.map fun pos => calc_margin ea inst pos.lots pos.open_price).sum

/-- risk_manager.py `RiskManager.get_free_margin`. -/
def get_free_margin (ea : EAConfig) (inst : InstrumentConfig) (equity : ℚ)
    (positions : List Position) : ℚ :=
  equity - get_used_margin ea inst positions

/-- risk_manager.py `RiskManager.calc_lots`. -/
def calc_lots (ea : EAConfig) (inst : InstrumentConfig) (stop_points : ℚ) (regime : VolRegime)
    (equity : ℚ) (positions : List Position) (entry_price : ℚ) : ℚ :=
  if stop_points ≤ 0 then 0
  else
    let point_val := inst.point_value
    if point_val ≤ 0 then 0
    else
      let risk_amount := equity * ea.risk_per_trade
      let lots0 := risk_amount / (stop_points * point_val)
      let lots1 :=
        match regime with
        | VolRegime.LOW => lots0 * (1/2)
        | VolRegime.HIGH => lots0 * (7/10)
        | VolRegime.NORMAL => lots0
      let step := inst.lot_step
      let lots2 := if 0 < step then (⌊lots1 / step⌋ : ℚ) * step else lots1
      let lots3 := max lots2 inst.min_lot
      let lots4 := min lots3 inst.max_lot
      let free := get_free_margin ea inst equity positions
      let required := calc_margin ea inst lots4 entry_price
      if free < required then
        if free ≤ 0 then 0
        else
          let lots5 := (free * ea.leverage) / (inst.contract_size * entry_price)
          let lots6 := if 0 < step then (⌊lots5 / step⌋ : ℚ) * step else lots5
          if lots6 < inst.min_lot then 0 else lots6
      else lots4

/-- risk_manager.py `RiskManager.can_open_trade` (the `day_start_equity`
field of the manager is passed explicitly). -/
def can_open_trade (ea : EAConfig) (inst : InstrumentConfig) (day_start_equity : ℚ)
    (positions : List Position) (equity spread_points new_lots new_price : ℚ) : Bool :=
  if ea.max_positions ≤ positions.length then false
  else if 0 < day_start_equity ∧ equity - day_start_equity < 0 ∧
      ea.max_daily_dd < |equity - day_start_equity| / day_start_equity then false
  else if ea.max_spread_points < spread_points then false
  else if get_free_margin ea inst equity positions < calc_margin ea inst new_lots new_price then
    false
  else true

/-- risk_manager.py `RiskManager.get_stop_loss`. -/
def get_stop_loss (signal : Signal) (kalman_level est_error multiplier : ℚ) : ℚ :=
  let stop_dist := est_error * multiplier
  if signal = Signal.BUY then kalman_level - stop_dist
  else if signal = Signal.SELL then kalman_level + stop_dist
  else 0

/-- risk_manager.py `RiskManager.get_stop_points`. -/
def get_stop_points (entry_price stop_loss point : ℚ) : ℚ :=
  |entry_price - stop_loss| / point

/-- backtester.py `BacktestResult`. -/
structure BacktestResult where
  equity_curve : List ℚ := []
  trades : List ClosedTrade := []
  kalman_levels : List ℚ := []
  kalman_upper : List ℚ := []
  kalman_lower : List ℚ := []
  hurst_values : List ℚ := []
  vol_regimes : List VolRegime := []
  signals : List Signal := []
  dates : List ℤ := []
deriving DecidableEq, Repr

/-- The mutable locals of `Backtester.run`, threaded through the bar loop. -/
structure LoopState where
  engine : SignalEngine
  equity : ℚ
  realized_pnl : ℚ
  positions : List Position
  closed_trades : List ClosedTrade
  next_ticket : ℕ
  bars_since_close : ℕ
  last_day : Option ℤ
  day_start_equity : ℚ
  result : BacktestResult
deriving DecidableEq, Repr

/-- One input bar of the main loop: the values
`closes[i], closes[i-1], highs[i], lows[i], dates[i]` read at index `i`. -/
structure BarData where
  index : ℕ
  close : ℚ
  prev_close : ℚ
  high : ℚ
  low : ℚ
  date : ℤ
deriving DecidableEq, Repr

/-- Whether the bar's extremes touch the position's stop
(the two branch guards of the stop-loss check in `Backtester.run`). -/
def slHit (p : Position) (bar_high bar_low : ℚ) : Bool :=
  match p.type with
  | PositionType.BUY => decide (bar_low ≤ p.stop_loss)
  | PositionType.SELL => decide (p.stop_loss ≤ bar_high)

/-- The `ClosedTrade` appended by the stop-loss check of `Backtester.run`
for a position whose stop is hit. -/
def slTrade (inst : InstrumentConfig) (i : ℕ) (date : ℤ) (p : Position) : ClosedTrade :=
  { ticket := p.ticket
    type := p.type
    open_time := p.open_time
    close_time := date
    open_price := p.open_price
    close_price := p.stop_loss
    lots := p.lots
    profit :=
      (match p.type with
       | PositionType.BUY => p.stop_loss - p.open_price
       | PositionType.SELL => p.open_price - p.stop_loss) * p.lots * inst.contract_size
    close_reason := "stop_loss"
    entry_bar_index := p.entry_bar_index
    exit_bar_index := i }

/-- Output of the stop-loss scan over the open-position list. -/
structure SLResult where
  remaining : List Position
  trades : List ClosedTrade
  pnl : ℚ
  anyHit : Bool
deriving DecidableEq, Repr

/-- The stop-loss check of `Backtester.run`: scan the positions in order,
close every position whose stop is touched at the stop price, and keep
the rest (the source collects hit indices and pops them afterwards;
the net effect on the ordered lists is identical). -/
def slCheck (inst : InstrumentConfig) (i : ℕ) (date : ℤ) (bar_high bar_low : ℚ) :
    List Position → SLResult
  | [] => { remaining := [], trades := [], pnl := 0, anyHit := false }
  | p :: rest =>
    let out := slCheck inst i date bar_high bar_low rest
    if slHit p bar_high bar_low then
      { remaining := out.remaining
        trades := slTrade inst i date p :: out.trades
        pnl := (slTrade inst i date p).profit + out.pnl
        anyHit := true }
    else
      { out with remaining := p :: out.remaining }

/-- The `ClosedTrade` appended by the signal-exit blocks of
`Backtester.run` (close at `price` = bid for longs / ask for shorts). -/
def signalTrade (inst : InstrumentConfig) (i : ℕ) (date : ℤ) (price : ℚ) (p : Position) :
    ClosedTrade :=
  { ticket := p.ticket
    type := p.type
    open_time := p.open_time
    close_time := date
    open_price := p.open_price
    close_price := price
    lots := p.lots
    profit :=
      (match p.type with
       | PositionType.BUY => price - p.open_price
       | PositionType.SELL => p.open_price - price) * p.lots * inst.contract_size
    close_reason := "signal"
    entry_bar_index := p.entry_bar_index
    exit_bar_index := i }

/-- The per-position body of the trailing-stop block of `Backtester.run`. -/
def trailAdjust (i min_hold : ℕ) (trail_buy trail_sell : ℚ) (p : Position) : Position :=
  if p.entry_bar_index = i then p
  else if i - p.entry_bar_index < min_hold then p
  else
    match p.type with
    | PositionType.BUY =>
      if 0 < trail_buy then
        if 0 < p.stop_loss ∧ p.stop_loss < trail_buy then { p with stop_loss := trail_buy }
        else p
      else p
    | PositionType.SELL =>
      if 0 < trail_sell then
        if 0 < p.stop_loss ∧ trail_sell < p.stop_loss then { p with stop_loss := trail_sell }
        else p
      else p

/-- Top of the loop body of `Backtester.run`: advance the
bars-since-close counter, detect a new calendar day (notifying the
risk manager, i.e. resetting `day_start_equity`), and feed the bar to
the signal engine. -/
def startBar (pr : Prims) (bar : BarData) (st : LoopState) : LoopState :=
  let sta := { st with bars_since_close := st.bars_since_close + 1 }
  let stb :=
    if some bar.date ≠ sta.last_day then
      { sta with
        day_start_equity := sta.equity
        last_day := some bar.date }
    else sta
  { stb with engine := stb.engine.on_new_bar pr bar.close bar.prev_close }

/-- The stop-loss section of the loop body of `Backtester.run`. -/
def slStep (inst : InstrumentConfig) (bar : BarData) (st : LoopState) : LoopState :=
  let out := slCheck inst bar.index bar.date bar.high bar.low st.positions
  { st with
    positions := out.remaining
    closed_trades := st.closed_trades ++ out.trades
    realized_pnl := st.realized_pnl + out.pnl
    bars_since_close := if out.anyHit then 0 else st.bars_since_close }

/-- The long signal-exit section of the loop body of `Backtester.run`. -/
def exitBuyStep (ea : EAConfig) (inst : InstrumentConfig) (bar : BarData) (st : LoopState) :
    LoopState :=
  if st.positions.any Position.isBuy = true ∧ st.engine.should_close_buy = true then
    let half_spread := inst.spread_points * inst.point / 2
    let bid := bar.close - half_spread
    let held := fun p : Position =>
      p.isBuy && decide (ea.min_hold_bars ≤ bar.index - p.entry_bar_index)
    let to_close := st.positions.filter held
    { st with
      positions := st.positions.filter fun p => ! held p
      closed_trades := st.closed_trades ++ to_close.map (signalTrade inst bar.index bar.date bid)
      realized_pnl :=
        st.realized_pnl + (to_close.map fun p => (signalTrade inst bar.index bar.date bid p).profit).sum
      bars_since_close := 0 }
  else st

/-- The short signal-exit section of the loop body of `Backtester.run`. -/
def exitSellStep (ea : EAConfig) (inst : InstrumentConfig) (bar : BarData) (st : LoopState) :
    LoopState :=
  if st.positions.any Position.isSell = true ∧ st.engine.should_close_sell = true then
    let half_spread := inst.spread_points * inst.point / 2
    let ask := bar.close + half_spread
    let held := fun p : Position =>
      p.isSell && decide (ea.min_hold_bars ≤ bar.index - p.entry_bar_index)
    let to_close := st.positions.filter held
    { st with
      positions := st.positions.filter fun p => ! held p
      closed_trades := st.closed_trades ++ to_close.map (signalTrade inst bar.index bar.date ask)
      realized_pnl :=
        st.realized_pnl + (to_close.map fun p => (signalTrade inst bar.index bar.date ask p).profit).sum
      bars_since_close := 0 }
  else st

/-- The reverse-position protection and cooldown suppression applied to
the raw entry signal in `Backtester.run`. -/
def suppressSignal (ea : EAConfig) (positions : List Position) (bars_since_close : ℕ)
    (s0 : Signal) : Signal :=
  let s1 :=
    if s0 = Signal.BUY ∧ positions.any Position.isSell = true then Signal.NONE else s0
  let s2 :=
    if s1 = Signal.SELL ∧ positions.any Position.isBuy = true then Signal.NONE else s1
  if s2 ≠ Signal.NONE ∧ bars_since_close < ea.close_cooldown then Signal.NONE else s2

/-- The entry section of the loop body of `Backtester.run`; also yields
the `entry_this_bar` flag and the (possibly suppressed) entry signal,
which the rest of the loop body reads. -/
def entryStep (ea : EAConfig) (inst : InstrumentConfig) (pr : Prims) (bar : BarData)
    (st : LoopState) : LoopState × Bool × Signal :=
  let s3 := suppressSignal ea st.positions st.bars_since_close
    (st.engine.get_entry_signal pr bar.close)
  if s3 ≠ Signal.NONE then
    let half_spread := inst.spread_points * inst.point / 2
    let slippage := ea.slippage_points * inst.point
    let kalman_level := st.engine.get_kalman_level
    let est_error := st.engine.get_estimation_error pr
    let regime := st.engine.get_vol_regime
    let sl := get_stop_loss s3 kalman_level est_error ea.kf_conf_band
    let entry_price :=
      if s3 = Signal.BUY then bar.close + half_spread + slippage
      else bar.close - half_spread - slippage
    let stop_points := get_stop_points entry_price sl inst.point
    let lots := calc_lots ea inst stop_points regime st.equity st.positions entry_price
    if 0 < lots ∧
        can_open_trade ea inst st.day_start_equity st.positions st.equity inst.spread_points
          lots entry_price = true then
      let pos : Position :=
        { ticket := st.next_ticket
          type := if s3 = Signal.BUY then PositionType.BUY else PositionType.SELL
          open_time := bar.date
          open_price := entry_price
          lots := lots
          stop_loss := sl
          entry_bar_index := bar.index }
      ({ st with
          positions := st.positions ++ [pos]
          next_ticket := st.next_ticket + 1 }, true, s3)
    else (st, false, s3)
  else (st, false, s3)

/-- The trailing-stop section of the loop body of `Backtester.run`
(skipped entirely on an entry bar). -/
def trailStep (ea : EAConfig) (pr : Prims) (bar : BarData) (entry_this_bar : Bool)
    (st : LoopState) : LoopState :=
  if entry_this_bar = false ∧ st.positions ≠ [] then
    let level := st.engine.get_kalman_level
    let err := st.engine.get_estimation_error pr
    let trail_buy := level - err * ea.trail_multiplier
    let trail_sell := level + err * ea.trail_multiplier
    { st with
      positions := st.positions.map (trailAdjust bar.index ea.min_hold_bars trail_buy trail_sell) }
  else st

/-- The equity mark-to-market and per-bar recording at the end of the
loop body of `Backtester.run`. -/
def finishBar (ea : EAConfig) (inst : InstrumentConfig) (pr : Prims) (bar : BarData)
    (entry_this_bar : Bool) (entry_signal : Signal) (st : LoopState) : LoopState :=
  let unrealized := (st.positions.map fun p =>
    (match p.type with
     | PositionType.BUY => bar.close - p.open_price
     | PositionType.SELL => p.open_price - bar.close) * p.lots * inst.contract_size).sum
  let equity := ea.initial_equity + st.realized_pnl + unrealized
  { st with
    equity := equity
    result := { st.result with
      equity_curve := st.result.equity_curve ++ [equity]
      kalman_levels := st.result.kalman_levels ++ [st.engine.get_kalman_level]
      kalman_upper := st.result.kalman_upper ++ [st.engine.get_upper_band pr]
      kalman_lower := st.result.kalman_lower ++ [st.engine.get_lower_band pr]
      hurst_values := st.result.hurst_values ++ [st.engine.get_hurst]
      vol_regimes := st.result.vol_regimes ++ [st.engine.get_vol_regime]
      signals := st.result.signals ++ [if entry_this_bar then entry_signal else Signal.NONE]
      dates := st.result.dates ++ [bar.date] } }

/-- The whole loop body of `Backtester.run` for one bar, composing the
sections in source order. -/
def barStep (ea : EAConfig) (inst : InstrumentConfig) (pr : Prims) (st : LoopState)
    (bar : BarData) : LoopState :=
  let st1 := startBar pr bar st
  let st2 := slStep inst bar st1
  let st3 := exitBuyStep ea inst bar st2
  let st4 := exitSellStep ea inst bar st3
  let eOut := entryStep ea inst pr bar st4
  let st5 := trailStep ea pr bar eOut.2.1 eOut.1
  finishBar ea inst pr bar eOut.2.1 eOut.2.2 st5

/-- The loop-state initialisation of `Backtester.run` (the
`day_start_equity` comes from `RiskManager.__init__`). -/
def initState (ea : EAConfig) (engine : SignalEngine) : LoopState :=
  { engine := engine
    equity := ea.initial_equity
    realized_pnl := 0
    positions := []
    closed_trades := []
    next_ticket := 1
    bars_since_close := 100
    last_day := none
    day_start_equity := ea.initial_equity
    result := {} }

/-- backtester.py: `warmup_bars = min(max(hurst_period, vol_hist_period) + 50, n_bars - 1)`. -/
def warmup_bars (ea : EAConfig) (n_bars : ℕ) : ℕ :=
  min (max ea.hurst_period ea.vol_hist_period + 50) (n_bars - 1)

/-- The `(close, prev_close)` pairs fed to the signal engine during
warmup: the seeding call `(closes[0], closes[0])` followed by
`(closes[i], closes[i-1])` for `i = 1 .. warmup_bars - 1`. -/
def warmupFeeds (closes : List ℚ) (w : ℕ) : List (ℚ × ℚ) :=
  (closes.getD 0 0, closes.getD 0 0) ::
    (List.range' 1 (w - 1)).map fun i => (closes.getD i 0, closes.getD (i - 1) 0)

/-- The signal engine as configured at the top of `Backtester.run`. -/
def mkEngine (ea : EAConfig) : SignalEngine :=
  SignalEngine.mk0.init ea.kf_process_noise ea.kf_observ_noise ea.kf_conf_band
    ea.hurst_period ea.hurst_threshold ea.vol_period ea.vol_hist_period
    ea.hurst_exit_threshold

/-- The engine state after the warmup feeds. -/
def warmEngine (ea : EAConfig) (pr : Prims) (closes : List ℚ) (w : ℕ) : SignalEngine :=
  (warmupFeeds closes w).foldl (fun e cp => e.on_new_bar pr cp.1 cp.2) (mkEngine ea)

/-- The bars traversed by the main loop, `i = warmup_bars .. n_bars - 1`
(each bar carries the array reads performed at index `i`). -/
def barInputs (closes highs lows : List ℚ) (dates : List ℤ) (w n : ℕ) : List BarData :=
  (List.range' w (n - w)).map fun i =>
    { index := i
      close := closes.getD i 0
      prev_close := closes.getD (i - 1) 0
      high := highs.getD i 0
      low := lows.getD i 0
      date := dates.getD i 0 }

/-- All loop states reached by `Backtester.run` (the state before the
first traded bar and after each traded bar). -/
def runStates (ea : EAConfig) (inst : InstrumentConfig) (pr : Prims)
    (closes highs lows : List ℚ) (dates : List ℤ) : List LoopState :=
  let n := closes.length
  let w := warmup_bars ea n
  (barInputs closes highs lows dates w n).scanl (barStep ea inst pr)
    (initState ea (warmEngine ea pr closes w))

/-- The `end_of_data` trade recorded for a position still open after the
final bar of `Backtester.run`. -/
def endTrade (inst : InstrumentConfig) (n_bars : ℕ) (last_close : ℚ) (last_date : ℤ)
    (half_spread : ℚ) (p : Position) : ClosedTrade :=
  let cp :=
    match p.type with
    | PositionType.BUY => last_close - half_spread
    | PositionType.SELL => last_close + half_spread
  { ticket := p.ticket
    type := p.type
    open_time := p.open_time
    close_time := last_date
    open_price := p.open_price
    close_price := cp
    lots := p.lots
    profit :=
      (match p.type with
       | PositionType.BUY => cp - p.open_price
       | PositionType.SELL => p.open_price - cp) * p.lots * inst.contract_size
    close_reason := "end_of_data"
    entry_bar_index := p.entry_bar_index
    exit_bar_index := n_bars - 1 }

/-- backtester.py `Backtester.run`. -/
def run (ea : EAConfig) (inst : InstrumentConfig) (pr : Prims)
    (closes highs lows : List ℚ) (dates : List ℤ) : BacktestResult :=
  let n := closes.length
  let w := warmup_bars ea n
  let final :=
    (barInputs closes highs lows dates w n).foldl (barStep ea inst pr)
      (initState ea (warmEngine ea pr closes w))
  let half_spread := inst.spread_points * inst.point / 2
  let endTrades :=
    final.positions.map (endTrade inst n (closes.getLastD 0) (dates.getLastD 0) half_spread)
  { final.result with trades := final.closed_trades ++ endTrades }

/-! ## Verified claims -/

theorem slCheck_spec (inst : InstrumentConfig) (i : ℕ) (d : ℤ) (hi lo : ℚ)
    (ps : List Position) :
    (slCheck inst i d hi lo ps).remaining = ps.filter (fun p => ! slHit p hi lo) ∧
    (slCheck inst i d hi lo ps).trades =
      (ps.filter fun p => slHit p hi lo).map (slTrade inst i d) ∧
    (slCheck inst i d hi lo ps).anyHit = ps.any fun p => slHit p hi lo := by
  induction ps with
  | nil => simp [slCheck]
  | cons p rest ih =>
    rcases ih with ⟨h1, h2, h3⟩
    by_cases h : slHit p hi lo
    · simp [slCheck, h, h1, h2, h3]
    · simp [slCheck, h, h1, h2, h3]

/-- C1: in the per-bar stop-loss check, every open long whose stop is
touched by the bar's low and every open short whose stop is touched by
the bar's high is closed that bar at exactly the stop-loss price, with
a `ClosedTrade` of reason `stop_loss` and profit
`(stop - openPrice) * lots * contractSize` (negated for shorts); the
bars-since-close counter is reset to 0 exactly when some stop is hit,
and untouched positions remain open and unchanged. -/
theorem C1_stop_loss_check (inst : InstrumentConfig) (bar : BarData) (st : LoopState) :
    (slStep inst bar st).positions =
      st.positions.filter (fun p => ! slHit p bar.high bar.low) ∧
    (slStep inst bar st).closed_trades =
      st.closed_trades ++
        (st.positions.filter fun p => slHit p bar.high bar.low).map
          (slTrade inst bar.index bar.date) ∧
    (slStep inst bar st).bars_since_close =
      (if st.positions.any (fun p => slHit p bar.high bar.low) then 0
       else st.bars_since_close) ∧
    (∀ p : Position, slHit p bar.high bar.low =
      (match p.type with
       | PositionType.BUY => decide (bar.low ≤ p.stop_loss)
       | PositionType.SELL => decide (bar.high ≥ p.stop_loss))) ∧
    (∀ p : Position,
      (slTrade inst bar.index bar.date p).close_price = p.stop_loss ∧
      (slTrade inst bar.index bar.date p).close_reason = "stop_loss" ∧
      (slTrade inst bar.index bar.date p).profit =
        (match p.type with
         | PositionType.BUY => (p.stop_loss - p.open_price) * p.lots * inst.contract_size
         | PositionType.SELL => -((p.stop_loss - p.open_price) * p.lots * inst.contract_size))) := by
  obtain ⟨h1, h2, h3⟩ := slCheck_spec inst bar.index bar.date bar.high bar.low st.positions
  refine ⟨?_, ?_, ?_, ?_, ?_⟩
  · simpa [slStep] using h1
  · simpa [slStep] using h2
  · simp [slStep, h3]
  · intro p; rfl
  · intro p
    refine ⟨rfl, rfl, ?_⟩
    cases hp : p.type <;> simp [slTrade, hp] <;> ring

/-- C10: when `day_start_equity <= 0`, the daily-drawdown gate of
`can_open_trade` is skipped entirely and the decision reduces to the
position-count, spread, and free-margin gates. -/
theorem C10_dd_gate_skipped (ea : EAConfig) (inst : InstrumentConfig) (dse : ℚ)
    (positions : List Position) (equity spread_points new_lots new_price : ℚ)
    (h : dse ≤ 0) :
    can_open_trade ea inst dse positions equity spread_points new_lots new_price =
      (decide (positions.length < ea.max_positions) &&
       decide (spread_points ≤ ea.max_spread_points) &&
       decide (calc_margin ea inst new_lots new_price ≤
         get_free_margin ea inst equity positions)) := by
  have hdd : ¬ (0 < dse ∧ equity - dse < 0 ∧ ea.max_daily_dd < |equity - dse| / dse) :=
    fun hc => absurd hc.1 (not_lt.2 h)
  unfold can_open_trade
  rw [if_neg hdd]
  split_ifs with h1 h2 h3
  · simp [not_lt.2 h1]
  · simp [not_le.2 h2]
  · simp [not_le.2 h3]
  · simp [not_le.1 h1, not_lt.1 h2, not_lt.1 h3]

theorem C10_dd_gate_skipped_witness :
    let ea : EAConfig :=
      { kf_process_noise := 1/100, kf_observ_noise := 1, kf_conf_band := 2,
        hurst_period := 2, hurst_threshold := 55/100, vol_period := 2, vol_hist_period := 3,
        risk_per_trade := 1/100, max_positions := 3, max_daily_dd := 3/100,
        max_spread_points := 30, hurst_exit_threshold := 2/5, trail_multiplier := 3,
        min_hold_bars := 5, slippage_points := 10, close_cooldown := 2,
        initial_equity := 10000, leverage := 100 }
    let inst : InstrumentConfig :=
      { point := 1/100000, point_value := 1, min_lot := 1/100, max_lot := 100,
        lot_step := 1/100, spread_points := 15, contract_size := 100000 }
    (0 : ℚ) ≤ 0 ∧
      can_open_trade ea inst 0 [] 10000 15 1 (11/10) =
        (decide (([] : List Position).length < ea.max_positions) &&
         decide ((15 : ℚ) ≤ ea.max_spread_points) &&
         decide (calc_margin ea inst 1 (11/10) ≤ get_free_margin ea inst 10000 [])) :=
  ⟨le_refl 0, C10_dd_gate_skipped _ _ 0 [] 10000 15 1 (11/10) (le_refl 0)⟩

/-- A concrete EA configuration (EURUSD-style defaults with small
estimator periods), used to instantiate witnesses. -/
def eaW : EAConfig :=
  { kf_process_noise := 1/100
    kf_observ_noise := 1
    kf_conf_band := 2
    hurst_period := 2
    hurst_threshold := 55/100
    vol_period := 2
    vol_hist_period := 3
    risk_per_trade := 1/100
    max_positions := 3
    max_daily_dd := 3/100
    max_spread_points := 30
    hurst_exit_threshold := 2/5
    trail_multiplier := 3
    min_hold_bars := 5
    slippage_points := 10
    close_cooldown := 2
    initial_equity := 10000
    leverage := 100 }

/-- A concrete EURUSD instrument configuration, used to instantiate
witnesses. -/
def instW : InstrumentConfig :=
  { point := 1/100000
    point_value := 1
    min_lot := 1/100
    max_lot := 100
    lot_step := 1/100
    spread_points := 15
    contract_size := 100000 }

/-- The position-sizing rule as worded by the spec (base size from the
risk fraction, regime multiplier, round down to the lot step, clamp to
the lot bounds, then the free-margin fallback). -/
def sizePosition_spec (ea : EAConfig) (inst : InstrumentConfig) (stop_points : ℚ)
    (regime : VolRegime) (equity : ℚ) (positions : List Position) (entry_price : ℚ) : ℚ :=
  if stop_points ≤ 0 ∨ inst.point_value ≤ 0 then 0
  else
    let base := (equity * ea.risk_per_trade) / (stop_points * inst.point_value)
    let mult : ℚ :=
      match regime with
      | VolRegime.LOW => 1/2
      | VolRegime.HIGH => 7/10
      | VolRegime.NORMAL => 1
    let rounded := (⌊(base * mult) / inst.lot_step⌋ : ℚ) * inst.lot_step
    let clamped := min (max rounded inst.min_lot) inst.max_lot
    let free := get_free_margin ea inst equity positions
    if calc_margin ea inst clamped entry_price > free then
      if free ≤ 0 then 0
      else
        let resized :=
          (⌊((free * ea.leverage) / (inst.contract_size * entry_price)) / inst.lot_step⌋ : ℚ) *
            inst.lot_step
        if resized < inst.min_lot then 0 else resized
    else clamped

/-- C3: for a positive lot step, `calc_lots` computes exactly the sizing
rule stated by the spec: 0 on non-positive stop distance or point value,
else the regime-adjusted risk-based size rounded down to the lot step
and clamped to the lot bounds, with the free-margin fallback (0 when
free margin is non-positive, else the margin-capped size rounded down,
or 0 below the minimum lot). -/
theorem C3_calc_lots_spec (ea : EAConfig) (inst : InstrumentConfig) (stop_points : ℚ)
    (regime : VolRegime) (equity : ℚ) (positions : List Position) (entry_price : ℚ)
    (hstep : 0 < inst.lot_step) :
    calc_lots ea inst stop_points regime equity positions entry_price =
      sizePosition_spec ea inst stop_points regime equity positions entry_price := by
  unfold calc_lots sizePosition_spec
  by_cases h1 : stop_points ≤ 0
  · simp [h1]
  by_cases h2 : inst.point_value ≤ 0
  · simp [h1, h2]
  simp only [h1, h2, if_false, if_pos hstep, or_self, if_neg (by
    exact not_or_intro h1 h2)]
  cases regime <;> simp [mul_one]

theorem C3_calc_lots_spec_witness :
    (0 : ℚ) < instW.lot_step ∧
      calc_lots eaW instW 100 VolRegime.NORMAL 10000 [] (11/10) =
        sizePosition_spec eaW instW 100 VolRegime.NORMAL 10000 [] (11/10) :=
  ⟨by norm_num [instW],
   C3_calc_lots_spec eaW instW 100 VolRegime.NORMAL 10000 [] (11/10) (by norm_num [instW])⟩

/-- C2: after initialization, a `KalmanFilter.update` with predicted
level `level + slope`, innovation `y = price - level'` and innovation
variance `S = P00' + R` commits exactly the predicted state and
covariance when `|y| > 3*sqrt(S)` (no correction), and otherwise
corrects the state with gains `K0 = P00'/S` and `K1 = P10'/S`. -/
theorem C2_kalman_outlier_gate (pr : Prims) (kf : KalmanFilter) (price : ℚ)
    (h : kf.initialized = true) :
    let level' := kf.level + kf.slope
    let P00' := (kf.P00 + kf.P10) + (kf.P01 + kf.P11) + kf.Q00
    let P01' := (kf.P01 + kf.P11) + kf.Q01
    let P10' := kf.P10 + kf.P11 + kf.Q10
    let P11' := kf.P11 + kf.Q11
    let y := price - level'
    let S := P00' + kf.R
    let kf' := kf.update pr price
    (|y| > 3 * pr.sqrt S →
      kf'.level = level' ∧ kf'.slope = kf.slope ∧
      kf'.P00 = P00' ∧ kf'.P01 = P01' ∧ kf'.P10 = P10' ∧ kf'.P11 = P11') ∧
    (¬ |y| > 3 * pr.sqrt S →
      kf'.level = level' + (P00' / S) * y ∧ kf'.slope = kf.slope + (P10' / S) * y) := by
  intro level' P00' P01' P10' P11' y S kf'
  constructor
  · intro hout
    have : kf' = { kf with
        level := level'
        slope := kf.slope
        P00 := P00'
        P01 := P01'
        P10 := P10'
        P11 := P11' } := by
      simp only [kf', KalmanFilter.update, h]
      rw [if_neg (by simp), if_pos hout]
    simp [this]
  · intro hin
    have : kf'.level = level' + (P00' / S) * y ∧ kf'.slope = kf.slope + (P10' / S) * y := by
      simp only [kf', KalmanFilter.update, h]
      rw [if_neg (by simp), if_neg hin]
      exact ⟨rfl, rfl⟩
    exact this

theorem C2_kalman_outlier_gate_witness :
    let kfW : KalmanFilter :=
      { KalmanFilter.mk0.init (1/100) 1 with initialized := true }
    kfW.initialized = true ∧
      ((|((1 : ℚ) - (kfW.level + kfW.slope))| >
          3 * prId.sqrt ((kfW.P00 + kfW.P10) + (kfW.P01 + kfW.P11) + kfW.Q00 + kfW.R) →
        (kfW.update prId 1).level = kfW.level + kfW.slope ∧
        (kfW.update prId 1).slope = kfW.slope ∧
        (kfW.update prId 1).P00 = (kfW.P00 + kfW.P10) + (kfW.P01 + kfW.P11) + kfW.Q00 ∧
        (kfW.update prId 1).P01 = (kfW.P01 + kfW.P11) + kfW.Q01 ∧
        (kfW.update prId 1).P10 = kfW.P10 + kfW.P11 + kfW.Q10 ∧
        (kfW.update prId 1).P11 = kfW.P11 + kfW.Q11) ∧
       (¬ |((1 : ℚ) - (kfW.level + kfW.slope))| >
          3 * prId.sqrt ((kfW.P00 + kfW.P10) + (kfW.P01 + kfW.P11) + kfW.Q00 + kfW.R) →
        (kfW.update prId 1).level =
          (kfW.level + kfW.slope) +
            (((kfW.P00 + kfW.P10) + (kfW.P01 + kfW.P11) + kfW.Q00) /
              ((kfW.P00 + kfW.P10) + (kfW.P01 + kfW.P11) + kfW.Q00 + kfW.R)) *
              (1 - (kfW.level + kfW.slope)) ∧
        (kfW.update prId 1).slope =
          kfW.slope +
            ((kfW.P10 + kfW.P11 + kfW.Q10) /
              ((kfW.P00 + kfW.P10) + (kfW.P01 + kfW.P11) + kfW.Q00 + kfW.R)) *
              (1 - (kfW.level + kfW.slope)))) :=
  ⟨rfl, C2_kalman_outlier_gate prId _ 1 rfl⟩

/-- C4 (amended): the trend-strength and volatility-regime estimators
silently ignore an update whose close or previous close is
non-positive, leaving their entire state unchanged; the trend filter
has no such guard (see the accompanying counterexample). -/
theorem C4_nonpositive_price_skipped (pr : Prims) (h : HurstExponent)
    (v : VolatilityRegime) (close prev_close : ℚ)
    (hle : prev_close ≤ 0 ∨ close ≤ 0) :
    h.update pr close prev_close = h ∧ v.update pr close prev_close = v :=
  ⟨by simp [HurstExponent.update, hle], by simp [VolatilityRegime.update, hle]⟩

theorem C4_nonpositive_price_skipped_witness :
    ((1 : ℚ) ≤ 0 ∨ (-1 : ℚ) ≤ 0) ∧
      (HurstExponent.mk0.init 2).update prId (-1) 1 = HurstExponent.mk0.init 2 ∧
      (VolatilityRegime.mk0.init 2 3).update prId (-1) 1 = VolatilityRegime.mk0.init 2 3 :=
  ⟨Or.inr (by norm_num),
   C4_nonpositive_price_skipped prId (HurstExponent.mk0.init 2)
     (VolatilityRegime.mk0.init 2 3) (-1) 1 (Or.inr (by norm_num))⟩

/-- C4 counterexample: a `KalmanFilter.update` call with the
non-positive price -1 is not ignored — it changes the filter state
(contrary to the claim that every estimator leaves its state unchanged
on a non-positive price). -/
theorem C4_kalman_not_skipped_cex :
    KalmanFilter.update prId (KalmanFilter.mk0.init (1/100) 1) (-1) ≠
      KalmanFilter.mk0.init (1/100) 1 := by
  decide

/-- C5 (amended): when an update computes a positive realized
volatility, the volatility is pushed into the history buffer, and the
percentile is recomputed as (count of history values strictly below
the current volatility) / (number of buffered history values) — but
only when the history then holds at least two values; the very first
pushed value leaves the previous percentile in place. -/
theorem C5_percentile_formula (pr : Prims) (v : VolatilityRegime) (close prev_close : ℚ)
    (h1 : 0 < prev_close) (h2 : 0 < close)
    (h3 : 0 < (v.update pr close prev_close).current_vol)
    (h4 : 2 ≤ (v.update pr close prev_close).vol_count) :
    (v.update pr close prev_close).percentile =
      ((((v.update pr close prev_close).vol_history.take
            (min (v.update pr close prev_close).vol_count
              (v.update pr close prev_close).hist_period)).filter
          fun x => x < (v.update pr close prev_close).current_vol).length : ℚ) /
        ((min (v.update pr close prev_close).vol_count
            (v.update pr close prev_close).hist_period : ℕ) : ℚ) := by
  have hguard : ¬ (prev_close ≤ 0 ∨ close ≤ 0) := by
    push_neg
    exact ⟨h1, h2⟩
  have hpp : ∀ u : VolatilityRegime,
      u.computePercentile.vol_count = u.vol_count ∧
      u.computePercentile.vol_history = u.vol_history ∧
      u.computePercentile.current_vol = u.current_vol ∧
      u.computePercentile.hist_period = u.hist_period := by
    intro u
    unfold VolatilityRegime.computePercentile
    split_ifs <;> exact ⟨rfl, rfl, rfl, rfl⟩
  revert h3 h4
  simp only [VolatilityRegime.update, if_neg hguard]
  by_cases hpos :
      0 < ((v.pushReturn (pr.log (close / prev_close))).computeVol pr).current_vol
  · simp only [if_pos hpos]
    intro h3 h4
    obtain ⟨hc1, hc2, hc3, hc4⟩ :=
      hpp ((v.pushReturn (pr.log (close / prev_close))).computeVol pr).pushVol
    rw [hc1] at h4
    rw [hc1, hc2, hc3, hc4]
    unfold VolatilityRegime.computePercentile
    rw [if_pos h4]
  · simp only [if_neg hpos]
    intro h3 h4
    exact absurd h3 hpos

theorem C5_percentile_formula_witness :
    let V := ((VolatilityRegime.mk0.init 2 3).update prId 2 1).update prId 4 1
    (0 : ℚ) < 1 ∧ (0 : ℚ) < 8 ∧ 0 < (V.update prId 8 1).current_vol ∧
      2 ≤ (V.update prId 8 1).vol_count ∧
      (V.update prId 8 1).percentile =
        ((((V.update prId 8 1).vol_history.take
              (min (V.update prId 8 1).vol_count (V.update prId 8 1).hist_period)).filter
            fun x => x < (V.update prId 8 1).current_vol).length : ℚ) /
          ((min (V.update prId 8 1).vol_count (V.update prId 8 1).hist_period : ℕ) : ℚ) := by
  have hcv : 0 < ((((VolatilityRegime.mk0.init 2 3).update prId 2 1).update prId 4
      1).update prId 8 1).current_vol := by
    norm_num [VolatilityRegime.update, VolatilityRegime.mk0, VolatilityRegime.init,
      VolatilityRegime.pushReturn, VolatilityRegime.computeVol, VolatilityRegime.pushVol,
      VolatilityRegime.computePercentile, prId]
  have hct : 2 ≤ ((((VolatilityRegime.mk0.init 2 3).update prId 2 1).update prId 4
      1).update prId 8 1).vol_count := by
    norm_num [VolatilityRegime.update, VolatilityRegime.mk0, VolatilityRegime.init,
      VolatilityRegime.pushReturn, VolatilityRegime.computeVol, VolatilityRegime.pushVol,
      VolatilityRegime.computePercentile, prId]
  exact ⟨by norm_num, by norm_num, hcv, hct,
    C5_percentile_formula prId _ 8 1 (by norm_num) (by norm_num) hcv hct⟩

/-- C5 counterexample: on the very first pushed history value the
stored percentile does not equal count-below / buffered-length — the
source recomputes the percentile only once two history values are
buffered, so the percentile stays at its initial 0.5 (here the claimed
ratio is 0). -/
theorem C5_first_push_cex :
    let V := ((VolatilityRegime.mk0.init 2 3).update prId 2 1).update prId 4 1
    0 < V.current_vol ∧ V.vol_count = 1 ∧
      V.percentile ≠
        (((V.vol_history.take (min V.vol_count V.hist_period)).filter
            fun x => x < V.current_vol).length : ℚ) /
          ((min V.vol_count V.hist_period : ℕ) : ℚ) := by
  norm_num [VolatilityRegime.update, VolatilityRegime.mk0, VolatilityRegime.init,
    VolatilityRegime.pushReturn, VolatilityRegime.computeVol, VolatilityRegime.pushVol,
    VolatilityRegime.computePercentile, prId, List.replicate]

theorem calculate_hurst_mem (pr : Prims) (h : HurstExponent) :
    0 ≤ h.calculate_hurst pr ∧ h.calculate_hurst pr ≤ 1 := by
  simp only [HurstExponent.calculate_hurst]
  split_ifs with h1 h2 h3
  · norm_num
  · norm_num
  · norm_num
  · exact ⟨le_max_left 0 _, max_le (by norm_num) (min_le_left 1 _)⟩

theorem update_hurst_mem (pr : Prims) (h : HurstExponent) (close prev_close : ℚ)
    (h0 : 0 ≤ h.hurst) (h1 : h.hurst ≤ 1) :
    0 ≤ (h.update pr close prev_close).hurst ∧ (h.update pr close prev_close).hurst ≤ 1 := by
  simp only [HurstExponent.update]
  split_ifs <;>
    first
      | exact ⟨h0, h1⟩
      | exact calculate_hurst_mem pr _
      | simpa using ⟨h0, h1⟩

/-- C8: the exposed trend-strength exponent is always in [0,1]: it is
0.5 right after init, the rescaled-range recomputation always lands in
[0,1] (early exits give 0.5, otherwise the regression slope is
clamped), and the invariant is preserved by every update call. -/
theorem C8_hurst_in_unit_interval (pr : Prims) (period : ℕ) (inputs : List (ℚ × ℚ)) :
    (HurstExponent.mk0.init period).get_hurst = 1/2 ∧
    (∀ h : HurstExponent, 0 ≤ h.calculate_hurst pr ∧ h.calculate_hurst pr ≤ 1) ∧
    0 ≤ (inputs.foldl (fun h cp => h.update pr cp.1 cp.2)
          (HurstExponent.mk0.init period)).get_hurst ∧
    (inputs.foldl (fun h cp => h.update pr cp.1 cp.2)
          (HurstExponent.mk0.init period)).get_hurst ≤ 1 := by
  have key : ∀ (l : List (ℚ × ℚ)) (h : HurstExponent), 0 ≤ h.hurst → h.hurst ≤ 1 →
      0 ≤ (l.foldl (fun h cp => h.update pr cp.1 cp.2) h).hurst ∧
      (l.foldl (fun h cp => h.update pr cp.1 cp.2) h).hurst ≤ 1 := by
    intro l
    induction l with
    | nil => intro h h0 h1; exact ⟨h0, h1⟩
    | cons cp rest ih =>
      intro h h0 h1
      obtain ⟨a, b⟩ := update_hurst_mem pr h cp.1 cp.2 h0 h1
      exact ih _ a b
  obtain ⟨a, b⟩ := key inputs (HurstExponent.mk0.init period)
    (by norm_num [HurstExponent.init]) (by norm_num [HurstExponent.init])
  exact ⟨rfl, fun h => calculate_hurst_mem pr h, a, b⟩

theorem suppressSignal_buy (ea : EAConfig) (positions : List Position) (bars : ℕ)
    (s0 : Signal) (h : suppressSignal ea positions bars s0 = Signal.BUY) :
    positions.any Position.isSell = false := by
  cases hany : positions.any Position.isSell with
  | false => rfl
  | true =>
    exfalso
    unfold suppressSignal at h
    cases s0 <;> simp only [hany] at h <;> split_ifs at h <;> simp_all

theorem suppressSignal_sell (ea : EAConfig) (positions : List Position) (bars : ℕ)
    (s0 : Signal) (h : suppressSignal ea positions bars s0 = Signal.SELL) :
    positions.any Position.isBuy = false := by
  cases hany : positions.any Position.isBuy with
  | false => rfl
  | true =>
    exfalso
    unfold suppressSignal at h
    cases s0 <;> simp only [hany] at h <;> split_ifs at h <;> simp_all

theorem suppressSignal_id_or_none (ea : EAConfig) (positions : List Position) (bars : ℕ)
    (s0 : Signal) :
    suppressSignal ea positions bars s0 = Signal.NONE ∨
      suppressSignal ea positions bars s0 = s0 := by
  simp only [suppressSignal]
  split_ifs <;> simp

theorem get_entry_signal_cases (pr : Prims) (e : SignalEngine) (price : ℚ) :
    e.get_entry_signal pr price = Signal.NONE ∨
    e.get_entry_signal pr price = Signal.BUY ∨
    e.get_entry_signal pr price = Signal.SELL := by
  simp only [SignalEngine.get_entry_signal]
  split_ifs <;> simp

theorem startBar_positions (pr : Prims) (bar : BarData) (st : LoopState) :
    (startBar pr bar st).positions = st.positions := by
  simp only [startBar]
  split_ifs <;> rfl

theorem startBar_result (pr : Prims) (bar : BarData) (st : LoopState) :
    (startBar pr bar st).result = st.result := by
  simp only [startBar]
  split_ifs <;> rfl

theorem startBar_next_ticket (pr : Prims) (bar : BarData) (st : LoopState) :
    (startBar pr bar st).next_ticket = st.next_ticket := by
  simp only [startBar]
  split_ifs <;> rfl

theorem slStep_positions (inst : InstrumentConfig) (bar : BarData) (st : LoopState) :
    (slStep inst bar st).positions =
      st.positions.filter (fun p => ! slHit p bar.high bar.low) := by
  simpa [slStep] using (slCheck_spec inst bar.index bar.date bar.high bar.low st.positions).1

theorem slStep_result (inst : InstrumentConfig) (bar : BarData) (st : LoopState) :
    (slStep inst bar st).result = st.result := rfl

theorem slStep_next_ticket (inst : InstrumentConfig) (bar : BarData) (st : LoopState) :
    (slStep inst bar st).next_ticket = st.next_ticket := rfl

theorem exitBuyStep_mem (ea : EAConfig) (inst : InstrumentConfig) (bar : BarData)
    (st : LoopState) (p : Position) (hp : p ∈ (exitBuyStep ea inst bar st).positions) :
    p ∈ st.positions := by
  simp only [exitBuyStep] at hp
  split_ifs at hp
  · exact List.mem_of_mem_filter hp
  · exact hp

theorem exitBuyStep_result (ea : EAConfig) (inst : InstrumentConfig) (bar : BarData)
    (st : LoopState) : (exitBuyStep ea inst bar st).result = st.result := by
  simp only [exitBuyStep]
  split_ifs <;> rfl

theorem exitBuyStep_next_ticket (ea : EAConfig) (inst : InstrumentConfig) (bar : BarData)
    (st : LoopState) : (exitBuyStep ea inst bar st).next_ticket = st.next_ticket := by
  simp only [exitBuyStep]
  split_ifs <;> rfl

theorem exitSellStep_mem (ea : EAConfig) (inst : InstrumentConfig) (bar : BarData)
    (st : LoopState) (p : Position) (hp : p ∈ (exitSellStep ea inst bar st).positions) :
    p ∈ st.positions := by
  simp only [exitSellStep] at hp
  split_ifs at hp
  · exact List.mem_of_mem_filter hp
  · exact hp

theorem exitSellStep_result (ea : EAConfig) (inst : InstrumentConfig) (bar : BarData)
    (st : LoopState) : (exitSellStep ea inst bar st).result = st.result := by
  simp only [exitSellStep]
  split_ifs <;> rfl

theorem exitSellStep_next_ticket (ea : EAConfig) (inst : InstrumentConfig) (bar : BarData)
    (st : LoopState) : (exitSellStep ea inst bar st).next_ticket = st.next_ticket := by
  simp only [exitSellStep]
  split_ifs <;> rfl

theorem entryStep_result (ea : EAConfig) (inst : InstrumentConfig) (pr : Prims)
    (bar : BarData) (st : LoopState) :
    (entryStep ea inst pr bar st).1.result = st.result := by
  simp only [entryStep]
  split_ifs <;> rfl

theorem trailStep_result (ea : EAConfig) (pr : Prims) (bar : BarData) (flag : Bool)
    (st : LoopState) : (trailStep ea pr bar flag st).result = st.result := by
  simp only [trailStep]
  split_ifs <;> rfl

theorem trailStep_next_ticket (ea : EAConfig) (pr : Prims) (bar : BarData) (flag : Bool)
    (st : LoopState) : (trailStep ea pr bar flag st).next_ticket = st.next_ticket := by
  simp only [trailStep]
  split_ifs <;> rfl

/-- Characterization of the entry section: either nothing is opened and
the state is unchanged, or exactly one new position is appended, whose
entry bar is the current bar, whose ticket is the next ticket, and
whose side is only opened when no opposite-side position is open. -/
theorem entryStep_spec (ea : EAConfig) (inst : InstrumentConfig) (pr : Prims)
    (bar : BarData) (st : LoopState) :
    ((entryStep ea inst pr bar st).1 = st ∧ (entryStep ea inst pr bar st).2.1 = false) ∨
    (∃ pos : Position,
      (entryStep ea inst pr bar st).1 =
        { st with
          positions := st.positions ++ [pos]
          next_ticket := st.next_ticket + 1 } ∧
      (entryStep ea inst pr bar st).2.1 = true ∧
      pos.entry_bar_index = bar.index ∧ pos.ticket = st.next_ticket ∧
      (pos.type = PositionType.BUY → st.positions.any Position.isSell = false) ∧
      (pos.type = PositionType.SELL → st.positions.any Position.isBuy = false)) := by
  have hs3 : suppressSignal ea st.positions st.bars_since_close
        (st.engine.get_entry_signal pr bar.close) = Signal.NONE ∨
      suppressSignal ea st.positions st.bars_since_close
        (st.engine.get_entry_signal pr bar.close) = Signal.BUY ∨
      suppressSignal ea st.positions st.bars_since_close
        (st.engine.get_entry_signal pr bar.close) = Signal.SELL := by
    rcases suppressSignal_id_or_none ea st.positions st.bars_since_close
        (st.engine.get_entry_signal pr bar.close) with h | h
    · exact Or.inl h
    · rcases get_entry_signal_cases pr st.engine bar.close with h0 | h0 | h0 <;>
        rw [h, h0] <;> simp
  rcases hs3 with h | h | h
  · refine Or.inl ?_
    constructor <;> simp [entryStep, h]
  · simp only [entryStep, h]
    split_ifs with h1 h2
    · refine Or.inr ⟨_, rfl, rfl, rfl, rfl, ?_, ?_⟩
      · intro _
        exact suppressSignal_buy ea st.positions st.bars_since_close _ h
      · intro hty
        simp at hty
    · exact Or.inl ⟨rfl, rfl⟩
    · exact Or.inl ⟨rfl, rfl⟩
  · simp only [entryStep, h]
    rw [if_pos (show Signal.SELL ≠ Signal.NONE by decide)]
    simp only [if_neg (show ¬ (Signal.SELL = Signal.BUY) by decide)]
    split_ifs with h2
    · refine Or.inr ⟨_, rfl, rfl, rfl, rfl, ?_, ?_⟩
      · intro hty
        simp at hty
      · intro _
        exact suppressSignal_sell ea st.positions st.bars_since_close _ h
    · exact Or.inl ⟨rfl, rfl⟩

theorem finishBar_positions (ea : EAConfig) (inst : InstrumentConfig) (pr : Prims)
    (bar : BarData) (flag : Bool) (sig : Signal) (st : LoopState) :
    (finishBar ea inst pr bar flag sig st).positions = st.positions := rfl

theorem trailStep_flag_true (ea : EAConfig) (pr : Prims) (bar : BarData) (st : LoopState) :
    trailStep ea pr bar true st = st := by
  simp [trailStep]

theorem trailAdjust_spec (i min_hold : ℕ) (tb ts : ℚ) (p : Position) :
    (trailAdjust i min_hold tb ts p).ticket = p.ticket ∧
    (trailAdjust i min_hold tb ts p).type = p.type ∧
    (trailAdjust i min_hold tb ts p).open_price = p.open_price ∧
    (trailAdjust i min_hold tb ts p).lots = p.lots ∧
    (trailAdjust i min_hold tb ts p).entry_bar_index = p.entry_bar_index ∧
    (p.type = PositionType.BUY → p.stop_loss ≤ (trailAdjust i min_hold tb ts p).stop_loss) ∧
    (p.type = PositionType.SELL → (trailAdjust i min_hold tb ts p).stop_loss ≤ p.stop_loss) ∧
    (¬ 0 < p.stop_loss → (trailAdjust i min_hold tb ts p).stop_loss = p.stop_loss) := by
  unfold trailAdjust
  cases hpt : p.type <;> split_ifs <;> simp_all <;> linarith

/-- The homogeneity invariant of the open-position set: all open
positions are long, or all are short. -/
def Homog (l : List Position) : Prop :=
  (∀ p ∈ l, p.type = PositionType.BUY) ∨ (∀ p ∈ l, p.type = PositionType.SELL)

instance (l : List Position) : Decidable (Homog l) := by
  unfold Homog
  infer_instance

theorem Homog_sub (l l' : List Position) (hsub : ∀ p ∈ l', p ∈ l) (h : Homog l) :
    Homog l' := by
  rcases h with h | h
  · exact Or.inl fun p hp => h p (hsub p hp)
  · exact Or.inr fun p hp => h p (hsub p hp)

theorem Homog_map (l : List Position) (f : Position → Position)
    (hf : ∀ p, (f p).type = p.type) (h : Homog l) : Homog (l.map f) := by
  rcases h with h | h
  · refine Or.inl fun p hp => ?_
    obtain ⟨q, hq, rfl⟩ := List.mem_map.1 hp
    rw [hf]
    exact h q hq
  · refine Or.inr fun p hp => ?_
    obtain ⟨q, hq, rfl⟩ := List.mem_map.1 hp
    rw [hf]
    exact h q hq

theorem type_buy_of_not_isSell (q : Position) (h : q.isSell = false) :
    q.type = PositionType.BUY := by
  cases hq : q.type
  · rfl
  · simp [Position.isSell, hq] at h

theorem type_sell_of_not_isBuy (q : Position) (h : q.isBuy = false) :
    q.type = PositionType.SELL := by
  cases hq : q.type
  · simp [Position.isBuy, hq] at h
  · rfl

theorem Homog_append_buy (l : List Position) (p : Position)
    (hl : l.any Position.isSell = false) (hp : p.type = PositionType.BUY) :
    Homog (l ++ [p]) := by
  refine Or.inl fun q hq => ?_
  rcases List.mem_append.1 hq with hq | hq
  · exact type_buy_of_not_isSell q (by
      have := List.any_eq_false.1 hl q hq
      simpa using this)
  · simp at hq
    subst hq
    exact hp

theorem Homog_append_sell (l : List Position) (p : Position)
    (hl : l.any Position.isBuy = false) (hp : p.type = PositionType.SELL) :
    Homog (l ++ [p]) := by
  refine Or.inr fun q hq => ?_
  rcases List.mem_append.1 hq with hq | hq
  · exact type_sell_of_not_isBuy q (by
      have := List.any_eq_false.1 hl q hq
      simpa using this)
  · simp at hq
    subst hq
    exact hp

theorem trailStep_homog (ea : EAConfig) (pr : Prims) (bar : BarData) (flag : Bool)
    (st : LoopState) (h : Homog st.positions) : Homog (trailStep ea pr bar flag st).positions := by
  simp only [trailStep]
  split_ifs with hc
  · exact Homog_map _ _ (fun p => (trailAdjust_spec bar.index ea.min_hold_bars _ _ p).2.1) h
  · exact h

theorem homog_barStep (ea : EAConfig) (inst : InstrumentConfig) (pr : Prims)
    (st : LoopState) (bar : BarData) (h : Homog st.positions) :
    Homog (barStep ea inst pr st bar).positions := by
  have h1 : Homog (startBar pr bar st).positions := by
    rw [startBar_positions]
    exact h
  have h2 : Homog (slStep inst bar (startBar pr bar st)).positions := by
    rw [slStep_positions]
    exact Homog_sub _ _ (fun p hp => List.mem_of_mem_filter hp) h1
  have h3 : Homog (exitBuyStep ea inst bar (slStep inst bar (startBar pr bar st))).positions :=
    Homog_sub _ _ (fun p hp => exitBuyStep_mem ea inst bar _ p hp) h2
  have h4 : Homog (exitSellStep ea inst bar
      (exitBuyStep ea inst bar (slStep inst bar (startBar pr bar st)))).positions :=
    Homog_sub _ _ (fun p hp => exitSellStep_mem ea inst bar _ p hp) h3
  simp only [barStep, finishBar_positions]
  rcases entryStep_spec ea inst pr bar
      (exitSellStep ea inst bar (exitBuyStep ea inst bar (slStep inst bar (startBar pr bar st))))
    with ⟨heq, hflag⟩ | ⟨pos, heq, hflag, _, _, hbuy, hsell⟩
  · rw [heq, hflag]
    exact trailStep_homog ea pr bar false _ h4
  · rw [heq, hflag, trailStep_flag_true]
    cases hpt : pos.type
    · exact Homog_append_buy _ _ (hbuy hpt) hpt
    · exact Homog_append_sell _ _ (hsell hpt) hpt

/-- C6: at every point reached during a simulation run, the set of open
positions is homogeneous in side — never simultaneously a long and a
short — because an entry is suppressed whenever an opposite-side
position is open. -/
theorem C6_no_mixed_sides (ea : EAConfig) (inst : InstrumentConfig) (pr : Prims)
    (closes highs lows : List ℚ) (dates : List ℤ) (s : LoopState)
    (hs : s ∈ runStates ea inst pr closes highs lows dates) : Homog s.positions := by
  have key : ∀ (bars : List BarData) (s0 : LoopState), Homog s0.positions →
      ∀ s ∈ bars.scanl (barStep ea inst pr) s0, Homog s.positions := by
    intro bars
    induction bars with
    | nil =>
      intro s0 h0 s hs
      simp only [List.scanl] at hs
      simp at hs
      subst hs
      exact h0
    | cons b rest ih =>
      intro s0 h0 s hs
      simp only [List.scanl] at hs
      rcases List.mem_cons.1 hs with rfl | hs
      · exact h0
      · exact ih (barStep ea inst pr s0 b) (homog_barStep ea inst pr s0 b h0) s hs
  exact key _ _ (Or.inl (by simp [initState])) s hs

theorem C6_no_mixed_sides_witness :
    initState eaW (warmEngine eaW prId [] (warmup_bars eaW 0)) ∈
        runStates eaW instW prId [] [] [] [] ∧
      Homog (initState eaW (warmEngine eaW prId [] (warmup_bars eaW 0))).positions :=
  ⟨by simp [runStates, barInputs],
   C6_no_mixed_sides eaW instW prId [] [] [] [] _ (by simp [runStates, barInputs])⟩

/-- C7: across one pass of the simulation loop, every open position
either was just opened this bar, or descends from a position open
before the bar with all identifying fields unchanged and a stop-loss
moved only in the favorable direction — never decreased for a long,
never increased for a short, and untouched when the position carried
no positive stop. -/
theorem C7_stop_only_tightens (ea : EAConfig) (inst : InstrumentConfig) (pr : Prims)
    (st : LoopState) (bar : BarData) (p' : Position)
    (hp : p' ∈ (barStep ea inst pr st bar).positions) :
    (p'.entry_bar_index = bar.index ∧ p'.ticket = st.next_ticket) ∨
    (∃ p, p ∈ st.positions ∧ p'.ticket = p.ticket ∧ p'.type = p.type ∧
      p'.open_price = p.open_price ∧ p'.lots = p.lots ∧
      p'.entry_bar_index = p.entry_bar_index ∧
      (p.type = PositionType.BUY → p.stop_loss ≤ p'.stop_loss) ∧
      (p.type = PositionType.SELL → p'.stop_loss ≤ p.stop_loss) ∧
      (¬ 0 < p.stop_loss → p'.stop_loss = p.stop_loss)) := by
  have hchain : ∀ q : Position,
      q ∈ (exitSellStep ea inst bar
            (exitBuyStep ea inst bar (slStep inst bar (startBar pr bar st)))).positions →
      q ∈ st.positions := by
    intro q hq
    have hq2 := exitSellStep_mem ea inst bar _ q hq
    have hq3 := exitBuyStep_mem ea inst bar _ q hq2
    rw [slStep_positions] at hq3
    have hq4 := List.mem_of_mem_filter hq3
    rwa [startBar_positions] at hq4
  have hticket :
      (exitSellStep ea inst bar
          (exitBuyStep ea inst bar (slStep inst bar (startBar pr bar st)))).next_ticket =
        st.next_ticket := by
    rw [exitSellStep_next_ticket, exitBuyStep_next_ticket, slStep_next_ticket,
      startBar_next_ticket]
  simp only [barStep, finishBar_positions] at hp
  rcases entryStep_spec ea inst pr bar
      (exitSellStep ea inst bar (exitBuyStep ea inst bar (slStep inst bar (startBar pr bar st))))
    with ⟨heq, hflag⟩ | ⟨pos, heq, hflag, hidx, htk, _, _⟩
  · rw [heq, hflag] at hp
    simp only [trailStep] at hp
    split_ifs at hp with hc
    · obtain ⟨q, hq, rfl⟩ := List.mem_map.1 hp
      obtain ⟨t1, t2, t3, t4, t5, t6, t7, t8⟩ :=
        trailAdjust_spec bar.index ea.min_hold_bars
          ((exitSellStep ea inst bar
              (exitBuyStep ea inst bar (slStep inst bar (startBar pr bar st)))).engine.get_kalman_level -
            SignalEngine.get_estimation_error pr
              (exitSellStep ea inst bar
                (exitBuyStep ea inst bar (slStep inst bar (startBar pr bar st)))).engine *
              ea.trail_multiplier)
          ((exitSellStep ea inst bar
              (exitBuyStep ea inst bar (slStep inst bar (startBar pr bar st)))).engine.get_kalman_level +
            SignalEngine.get_estimation_error pr
              (exitSellStep ea inst bar
                (exitBuyStep ea inst bar (slStep inst bar (startBar pr bar st)))).engine *
              ea.trail_multiplier)
          q
      exact Or.inr ⟨q, hchain q hq, t1, t2, t3, t4, t5, t6, t7, t8⟩
    · exact Or.inr ⟨p', hchain p' hp, rfl, rfl, rfl, rfl, rfl,
        fun _ => le_refl _, fun _ => le_refl _, fun _ => rfl⟩
  · rw [heq, hflag, trailStep_flag_true] at hp
    rcases List.mem_append.1 hp with hp | hp
    · exact Or.inr ⟨p', hchain p' hp, rfl, rfl, rfl, rfl, rfl,
        fun _ => le_refl _, fun _ => le_refl _, fun _ => rfl⟩
    · simp at hp
      subst hp
      exact Or.inl ⟨hidx, by rw [htk, hticket]⟩

/-- Witness data for the trailing-ratchet claim: a single open long with
zero stop, a bar that touches nothing. -/
def p0W : Position :=
  { ticket := 1
    type := PositionType.BUY
    open_time := 0
    open_price := 1
    lots := 1
    stop_loss := 0
    entry_bar_index := 0 }

def stW : LoopState :=
  { engine := SignalEngine.mk0
    equity := 0
    realized_pnl := 0
    positions := [p0W]
    closed_trades := []
    next_ticket := 2
    bars_since_close := 100
    last_day := none
    day_start_equity := 0
    result := {} }

def barW : BarData :=
  { index := 5
    close := 0
    prev_close := 0
    high := 0
    low := 1
    date := 0 }

def st4W : LoopState :=
  exitSellStep eaW instW barW (exitBuyStep eaW instW barW (slStep instW barW (startBar prId barW stW)))

theorem p0W_mem_barStep : p0W ∈ (barStep eaW instW prId stW barW).positions := by
  have htrail : ∀ tb ts : ℚ, trailAdjust 5 5 tb ts p0W = p0W := by
    intro tb ts
    unfold trailAdjust
    norm_num [p0W]
  have hpos4 : st4W.positions = [p0W] := rfl
  have hflag : (entryStep eaW instW prId barW st4W).2.1 = false := rfl
  have hst : (entryStep eaW instW prId barW st4W).1 = st4W := rfl
  have htrailpos : (trailStep eaW prId barW false st4W).positions = [p0W] := by
    simp only [trailStep]
    split_ifs with hc
    · rw [hpos4, List.map_singleton]
      rw [show eaW.min_hold_bars = 5 from rfl, show barW.index = 5 from rfl]
      rw [htrail _ _]
    · exact hpos4
  have hbar : (barStep eaW instW prId stW barW).positions =
      (trailStep eaW prId barW false st4W).positions := by
    show (finishBar eaW instW prId barW (entryStep eaW instW prId barW st4W).2.1
        (entryStep eaW instW prId barW st4W).2.2
        (trailStep eaW prId barW (entryStep eaW instW prId barW st4W).2.1
          (entryStep eaW instW prId barW st4W).1)).positions =
      (trailStep eaW prId barW false st4W).positions
    rw [finishBar_positions, hflag, hst]
  rw [hbar, htrailpos]
  exact List.mem_singleton.2 rfl

theorem C7_stop_only_tightens_witness :
    p0W ∈ (barStep eaW instW prId stW barW).positions ∧
      ((p0W.entry_bar_index = barW.index ∧ p0W.ticket = stW.next_ticket) ∨
       (∃ p, p ∈ stW.positions ∧ p0W.ticket = p.ticket ∧ p0W.type = p.type ∧
         p0W.open_price = p.open_price ∧ p0W.lots = p.lots ∧
         p0W.entry_bar_index = p.entry_bar_index ∧
         (p.type = PositionType.BUY → p.stop_loss ≤ p0W.stop_loss) ∧
         (p.type = PositionType.SELL → p0W.stop_loss ≤ p.stop_loss) ∧
         (¬ 0 < p.stop_loss → p0W.stop_loss = p.stop_loss))) :=
  ⟨p0W_mem_barStep,
   C7_stop_only_tightens eaW instW prId stW barW p0W p0W_mem_barStep⟩

theorem barStep_result_lengths (ea : EAConfig) (inst : InstrumentConfig) (pr : Prims)
    (st : LoopState) (bar : BarData) :
    ((barStep ea inst pr st bar).result.equity_curve.length =
      st.result.equity_curve.length + 1) ∧
    ((barStep ea inst pr st bar).result.kalman_levels.length =
      st.result.kalman_levels.length + 1) ∧
    ((barStep ea inst pr st bar).result.kalman_upper.length =
      st.result.kalman_upper.length + 1) ∧
    ((barStep ea inst pr st bar).result.kalman_lower.length =
      st.result.kalman_lower.length + 1) ∧
    ((barStep ea inst pr st bar).result.hurst_values.length =
      st.result.hurst_values.length + 1) ∧
    ((barStep ea inst pr st bar).result.vol_regimes.length =
      st.result.vol_regimes.length + 1) ∧
    ((barStep ea inst pr st bar).result.signals.length =
      st.result.signals.length + 1) ∧
    ((barStep ea inst pr st bar).result.dates.length =
      st.result.dates.length + 1) := by
  have hres : (trailStep ea pr bar
      (entryStep ea inst pr bar
        (exitSellStep ea inst bar
          (exitBuyStep ea inst bar (slStep inst bar (startBar pr bar st))))).2.1
      (entryStep ea inst pr bar
        (exitSellStep ea inst bar
          (exitBuyStep ea inst bar (slStep inst bar (startBar pr bar st))))).1).result =
      st.result := by
    rw [trailStep_result, entryStep_result, exitSellStep_result, exitBuyStep_result,
      slStep_result, startBar_result]
  simp only [barStep, finishBar]
  rw [hres]
  simp [List.length_append]

theorem foldl_result_lengths (ea : EAConfig) (inst : InstrumentConfig) (pr : Prims)
    (bars : List BarData) (s : LoopState) :
    ((bars.foldl (barStep ea inst pr) s).result.equity_curve.length =
      s.result.equity_curve.length + bars.length) ∧
    ((bars.foldl (barStep ea inst pr) s).result.kalman_levels.length =
      s.result.kalman_levels.length + bars.length) ∧
    ((bars.foldl (barStep ea inst pr) s).result.kalman_upper.length =
      s.result.kalman_upper.length + bars.length) ∧
    ((bars.foldl (barStep ea inst pr) s).result.kalman_lower.length =
      s.result.kalman_lower.length + bars.length) ∧
    ((bars.foldl (barStep ea inst pr) s).result.hurst_values.length =
      s.result.hurst_values.length + bars.length) ∧
    ((bars.foldl (barStep ea inst pr) s).result.vol_regimes.length =
      s.result.vol_regimes.length + bars.length) ∧
    ((bars.foldl (barStep ea inst pr) s).result.signals.length =
      s.result.signals.length + bars.length) ∧
    ((bars.foldl (barStep ea inst pr) s).result.dates.length =
      s.result.dates.length + bars.length) := by
  induction bars generalizing s with
  | nil => simp
  | cons b rest ih =>
    obtain ⟨b1, b2, b3, b4, b5, b6, b7, b8⟩ := barStep_result_lengths ea inst pr s b
    obtain ⟨i1, i2, i3, i4, i5, i6, i7, i8⟩ := ih (barStep ea inst pr s b)
    simp only [List.foldl_cons, List.length_cons]
    rw [i1, i2, i3, i4, i5, i6, i7, i8, b1, b2, b3, b4, b5, b6, b7, b8]
    omega

theorem run_arrays (ea : EAConfig) (inst : InstrumentConfig) (pr : Prims)
    (closes highs lows : List ℚ) (dates : List ℤ) :
    (run ea inst pr closes highs lows dates).equity_curve =
      ((barInputs closes highs lows dates (warmup_bars ea closes.length)
          closes.length).foldl (barStep ea inst pr)
        (initState ea (warmEngine ea pr closes (warmup_bars ea closes.length)))).result.equity_curve ∧
    (run ea inst pr closes highs lows dates).kalman_levels =
      ((barInputs closes highs lows dates (warmup_bars ea closes.length)
          closes.length).foldl (barStep ea inst pr)
        (initState ea (warmEngine ea pr closes (warmup_bars ea closes.length)))).result.kalman_levels ∧
    (run ea inst pr closes highs lows dates).kalman_upper =
      ((barInputs closes highs lows dates (warmup_bars ea closes.length)
          closes.length).foldl (barStep ea inst pr)
        (initState ea (warmEngine ea pr closes (warmup_bars ea closes.length)))).result.kalman_upper ∧
    (run ea inst pr closes highs lows dates).kalman_lower =
      ((barInputs closes highs lows dates (warmup_bars ea closes.length)
          closes.length).foldl (barStep ea inst pr)
        (initState ea (warmEngine ea pr closes (warmup_bars ea closes.length)))).result.kalman_lower ∧
    (run ea inst pr closes highs lows dates).hurst_values =
      ((barInputs closes highs lows dates (warmup_bars ea closes.length)
          closes.length).foldl (barStep ea inst pr)
        (initState ea (warmEngine ea pr closes (warmup_bars ea closes.length)))).result.hurst_values ∧
    (run ea inst pr closes highs lows dates).vol_regimes =
      ((barInputs closes highs lows dates (warmup_bars ea closes.length)
          closes.length).foldl (barStep ea inst pr)
        (initState ea (warmEngine ea pr closes (warmup_bars ea closes.length)))).result.vol_regimes ∧
    (run ea inst pr closes highs lows dates).signals =
      ((barInputs closes highs lows dates (warmup_bars ea closes.length)
          closes.length).foldl (barStep ea inst pr)
        (initState ea (warmEngine ea pr closes (warmup_bars ea closes.length)))).result.signals ∧
    (run ea inst pr closes highs lows dates).dates =
      ((barInputs closes highs lows dates (warmup_bars ea closes.length)
          closes.length).foldl (barStep ea inst pr)
        (initState ea (warmEngine ea pr closes (warmup_bars ea closes.length)))).result.dates :=
  ⟨rfl, rfl, rfl, rfl, rfl, rfl, rfl, rfl⟩

/-- C9: with at least the validated minimum number of bars, the warmup
feeds exactly `warmup_bars = min(max(strengthPeriod, volHistPeriod)+50,
totalBars-1)` bar pairs to the signal engine, the first being the
seeding pair `(close[0], close[0])`, and every per-bar record array of
the run has length exactly `totalBars - warmup_bars`. -/
theorem C9_warmup_and_record_lengths (ea : EAConfig) (inst : InstrumentConfig) (pr : Prims)
    (closes highs lows : List ℚ) (dates : List ℤ)
    (hlen : max ea.hurst_period ea.vol_hist_period + 50 ≤ closes.length) :
    (warmupFeeds closes (warmup_bars ea closes.length)).length =
      warmup_bars ea closes.length ∧
    (warmupFeeds closes (warmup_bars ea closes.length)).head? =
      some (closes.getD 0 0, closes.getD 0 0) ∧
    (run ea inst pr closes highs lows dates).equity_curve.length =
      closes.length - warmup_bars ea closes.length ∧
    (run ea inst pr closes highs lows dates).kalman_levels.length =
      closes.length - warmup_bars ea closes.length ∧
    (run ea inst pr closes highs lows dates).kalman_upper.length =
      closes.length - warmup_bars ea closes.length ∧
    (run ea inst pr closes highs lows dates).kalman_lower.length =
      closes.length - warmup_bars ea closes.length ∧
    (run ea inst pr closes highs lows dates).hurst_values.length =
      closes.length - warmup_bars ea closes.length ∧
    (run ea inst pr closes highs lows dates).vol_regimes.length =
      closes.length - warmup_bars ea closes.length ∧
    (run ea inst pr closes highs lows dates).signals.length =
      closes.length - warmup_bars ea closes.length ∧
    (run ea inst pr closes highs lows dates).dates.length =
      closes.length - warmup_bars ea closes.length := by
  have hw1 : 1 ≤ warmup_bars ea closes.length := by
    unfold warmup_bars
    omega
  have hfeeds : (warmupFeeds closes (warmup_bars ea closes.length)).length =
      warmup_bars ea closes.length := by
    simp [warmupFeeds]
    omega
  have hbars : (barInputs closes highs lows dates (warmup_bars ea closes.length)
      closes.length).length = closes.length - warmup_bars ea closes.length := by
    simp [barInputs]
  obtain ⟨f1, f2, f3, f4, f5, f6, f7, f8⟩ :=
    foldl_result_lengths ea inst pr
      (barInputs closes highs lows dates (warmup_bars ea closes.length) closes.length)
      (initState ea (warmEngine ea pr closes (warmup_bars ea closes.length)))
  obtain ⟨r1, r2, r3, r4, r5, r6, r7, r8⟩ := run_arrays ea inst pr closes highs lows dates
  refine ⟨hfeeds, by simp [warmupFeeds], ?_, ?_, ?_, ?_, ?_, ?_, ?_, ?_⟩
  · rw [r1, f1, hbars]
    simp [initState]
  · rw [r2, f2, hbars]
    simp [initState]
  · rw [r3, f3, hbars]
    simp [initState]
  · rw [r4, f4, hbars]
    simp [initState]
  · rw [r5, f5, hbars]
    simp [initState]
  · rw [r6, f6, hbars]
    simp [initState]
  · rw [r7, f7, hbars]
    simp [initState]
  · rw [r8, f8, hbars]
    simp [initState]

theorem C9_warmup_and_record_lengths_witness :
    max eaW.hurst_period eaW.vol_hist_period + 50 ≤ (List.replicate 53 (1 : ℚ)).length ∧
      (run eaW instW prId (List.replicate 53 (1 : ℚ)) (List.replicate 53 (1 : ℚ))
          (List.replicate 53 (1 : ℚ)) (List.replicate 53 (0 : ℤ))).equity_curve.length =
        (List.replicate 53 (1 : ℚ)).length -
          warmup_bars eaW (List.replicate 53 (1 : ℚ)).length :=
  ⟨by simp [eaW], (C9_warmup_and_record_lengths eaW instW prId _ _ _ _
    (by simp [eaW])).2.2.1⟩
